import Mathlib

/-!
Verification of the signal fusion and target-calculation engine of the
Sui price-prediction repository.

The Python source is shallowly embedded: prices, scores and thresholds
are rationals (`ℚ`); the float literals `0.25`, `0.15`, `0.1`, `0.5`,
`0.8`, `1.5` of the source are exact in `ℚ`. Dictionaries with a fixed
key set become structures; a dictionary key that may be absent
(`confidence_score` looked up with `.get`) becomes an `Option`;
the two distinct dictionary shapes returned by `_generate_final_signal`
become one structure with `Option` fields, `none` marking an absent key.
`datetime.now()` is modelled as an explicit `timestamp` argument.
-/

set_option maxRecDepth 4000

/-- The boolean technical conditions of the latest bar, as read by
`_generate_final_signal` and `_get_entry_timing` from the signals row
(`trading_signals.py`). -/
structure TechnicalConditions where
  uptrend : Bool
  downtrend : Bool
  golden_cross : Bool
  death_cross : Bool
  rsi_oversold : Bool
  rsi_overbought : Bool
  high_volume : Bool
deriving DecidableEq, Repr

/-- The sentiment verdict dictionary produced by
`DeepSeekClient._parse_ai_response`. `confidence_score` is `Option`
because the fuser reads it with `.get` and a default. -/
structure AiAnalysis where
  sentiment : String
  confidence_score : Option ℚ
  key_levels : List ℚ
  recommendations : List String
deriving DecidableEq, Repr

/-- The score accumulation of `_generate_final_signal`
(`trading_signals.py` lines 82-107): both accumulators start at 0,
each technical flag adds its weight once, then the sentiment branch
(`if bullish ... elif bearish`) adds `0.5 * ai_confidence`, where
`ai_confidence = ai_analysis.get('confidence_score', 0.5)`.
Returns `(bull_score, bear_score)`. -/
def fuser_scores (technical_signals : TechnicalConditions)
    (ai_analysis : AiAnalysis) : ℚ × ℚ :=
  let bull_score : ℚ := 0
  let bear_score : ℚ := 0
  let bull_score := if technical_signals.uptrend then bull_score + 0.25 else bull_score
  let bear_score := if technical_signals.downtrend then bear_score + 0.25 else bear_score
  let bull_score := if technical_signals.golden_cross then bull_score + 0.15 else bull_score
  let bear_score := if technical_signals.death_cross then bear_score + 0.15 else bear_score
  let bull_score := if technical_signals.rsi_oversold then bull_score + 0.1 else bull_score
  let bear_score := if technical_signals.rsi_overbought then bear_score + 0.1 else bear_score
  let ai_confidence := ai_analysis.confidence_score.getD 0.5
  if ai_analysis.sentiment = "bullish" then
    (bull_score + 0.5 * ai_confidence, bear_score)
  else if ai_analysis.sentiment = "bearish" then
    (bull_score, bear_score + 0.5 * ai_confidence)
  else
    (bull_score, bear_score)

/-- Maximum of a list of rationals; `0` on the empty list (on an empty
frame the source's rolling aggregate is not a number, a case excluded by
hypotheses wherever it matters). -/
def listMax : List ℚ → ℚ
  | [] => 0
  | x :: xs => xs.foldl max x

/-- Minimum of a list of rationals; `0` on the empty list. -/
def listMin : List ℚ → ℚ
  | [] => 0
  | x :: xs => xs.foldl min x

/-- `series.iloc[-1]`: the last element of a series, `0` on the empty
list (the source would raise there; excluded by hypotheses where it
matters). -/
def lastElem (xs : List ℚ) : ℚ := xs.getLast?.getD 0

/-- The stop-loss / take-profit record returned by
`TechnicalAnalysis.calculate_trade_targets` (`technical_indicators.py`
lines 154-159). -/
structure TradeTargets where
  stop_loss : ℚ
  take_profit : ℚ
  risk_distance : ℚ
  reward_distance : ℚ
deriving DecidableEq, Repr

/-- The finite-value form of `TechnicalAnalysis.calculate_trade_targets`
(`technical_indicators.py` lines 128-159) over `ℚ`.
`highs`, `lows`, `closes` are the columns of `self.df`;
`atr = high.rolling(14).max().iloc[-1] - low.rolling(14).min().iloc[-1]`,
`current_atr = atr / close.iloc[-1]`. Any `trend` other than `"long"`
takes the short branch, as in the source. This total `ℚ` function
describes the source only on its finite domain: frames with at least
14 bars and a nonzero latest close, where `calc_targets_fp_finite`
proves it returns exactly the values of the faithful float model
`calculate_trade_targets_fp`. Outside that domain (shorter frames give
NaN aggregates, a zero close gives a non-finite quotient, an empty
frame raises) the float model is the authority; here `ℚ` division by
zero yields 0 and the window silently shortens, junk values no theorem
relies on. `_generate_final_signal` uses this form for the structural
output record, whose claims never read the target values. -/
def calculate_trade_targets (highs lows closes : List ℚ)
    (current_price : ℚ) (trend : String) (risk_reward_ratio : ℚ) :
    TradeTargets :=
  let atr := listMax (highs.reverse.take 14) - listMin (lows.reverse.take 14)
  let current_atr := atr / lastElem closes
  let stop_distance := current_price * current_atr * 1.5
  let stop_loss :=
    if trend = "long" then current_price - stop_distance
    else current_price + stop_distance
  let take_profit :=
    if trend = "long" then current_price + stop_distance * risk_reward_ratio
    else current_price - stop_distance * risk_reward_ratio
  { stop_loss := stop_loss
    take_profit := take_profit
    risk_distance := |current_price - stop_loss|
    reward_distance := |take_profit - current_price| }

/-- A numpy float64 value as it appears in the target calculation,
idealized so that finite values are exact rationals (the numbers
involved are far from overflow and the claims are about exact
identities, not rounding): a finite value, a signed infinity, or NaN.
Zeros are unsigned (`fin 0` behaves as +0.0), which is faithful here:
every input to the calculation is a data value or price, and IEEE
comparisons do not distinguish +0.0 from -0.0. -/
inductive FloatVal where
  | fin (q : ℚ)
  | posInf
  | negInf
  | nan
deriving DecidableEq, Repr

/-- IEEE addition on `FloatVal`: NaN propagates, opposite infinities
give NaN, an infinity absorbs any finite operand. -/
def FloatVal.add : FloatVal → FloatVal → FloatVal
  | fin a, fin b => fin (a + b)
  | fin _, posInf => posInf
  | fin _, negInf => negInf
  | posInf, fin _ => posInf
  | posInf, posInf => posInf
  | posInf, negInf => nan
  | negInf, fin _ => negInf
  | negInf, negInf => negInf
  | negInf, posInf => nan
  | nan, _ => nan
  | _, nan => nan

/-- IEEE subtraction on `FloatVal`: NaN propagates, an infinity minus
itself gives NaN. -/
def FloatVal.sub : FloatVal → FloatVal → FloatVal
  | fin a, fin b => fin (a - b)
  | fin _, posInf => negInf
  | fin _, negInf => posInf
  | posInf, fin _ => posInf
  | posInf, negInf => posInf
  | posInf, posInf => nan
  | negInf, fin _ => negInf
  | negInf, posInf => negInf
  | negInf, negInf => nan
  | nan, _ => nan
  | _, nan => nan

/-- IEEE multiplication on `FloatVal`: NaN propagates, zero times an
infinity gives NaN, otherwise infinities multiply by sign. -/
def FloatVal.mul : FloatVal → FloatVal → FloatVal
  | fin a, fin b => fin (a * b)
  | fin a, posInf => if 0 < a then posInf else if a < 0 then negInf else nan
  | fin a, negInf => if 0 < a then negInf else if a < 0 then posInf else nan
  | posInf, fin b => if 0 < b then posInf else if b < 0 then negInf else nan
  | negInf, fin b => if 0 < b then negInf else if b < 0 then posInf else nan
  | posInf, posInf => posInf
  | posInf, negInf => negInf
  | negInf, posInf => negInf
  | negInf, negInf => posInf
  | nan, _ => nan
  | _, nan => nan

/-- IEEE division on `FloatVal`. A zero denominator raises nothing:
a nonzero finite numerator gives a signed infinity and 0/0 gives NaN,
exactly as numpy float64 division behaves. -/
def FloatVal.div : FloatVal → FloatVal → FloatVal
  | fin a, fin b =>
      if b = 0 then (if 0 < a then posInf else if a < 0 then negInf else nan)
      else fin (a / b)
  | fin _, posInf => fin 0
  | fin _, negInf => fin 0
  | posInf, fin b => if b < 0 then negInf else posInf
  | negInf, fin b => if b < 0 then posInf else negInf
  | posInf, posInf => nan
  | posInf, negInf => nan
  | negInf, posInf => nan
  | negInf, negInf => nan
  | nan, _ => nan
  | _, nan => nan

/-- IEEE absolute value on `FloatVal`. -/
def FloatVal.fabs : FloatVal → FloatVal
  | fin a => fin |a|
  | posInf => posInf
  | negInf => posInf
  | nan => nan

/-- IEEE equality comparison on `FloatVal`: NaN compares unequal to
everything, itself included; infinities compare equal only to the
same-signed infinity. This is the `==` the program would apply to its
float results. -/
def FloatVal.floatEq : FloatVal → FloatVal → Bool
  | fin a, fin b => a == b
  | posInf, posInf => true
  | negInf, negInf => true
  | _, _ => false

/-- `series.rolling(14).max().iloc[-1]` with pandas' default
`min_periods = window`: the maximum of the last 14 elements when the
series has at least 14, and NaN when it is shorter. -/
def rollingMaxLast (w : Nat) (xs : List ℚ) : FloatVal :=
  if w ≤ xs.length then FloatVal.fin (listMax (xs.reverse.take w)) else FloatVal.nan

/-- `series.rolling(14).min().iloc[-1]` with pandas' default
`min_periods = window`: NaN below 14 elements. -/
def rollingMinLast (w : Nat) (xs : List ℚ) : FloatVal :=
  if w ≤ xs.length then FloatVal.fin (listMin (xs.reverse.take w)) else FloatVal.nan

/-- The targets record over float values. -/
structure TradeTargetsFp where
  stop_loss : FloatVal
  take_profit : FloatVal
  risk_distance : FloatVal
  reward_distance : FloatVal
deriving DecidableEq, Repr

/-- `TechnicalAnalysis.calculate_trade_targets` step for step over
`FloatVal`: the faithful model of the source's float computation.
`highs`, `lows`, `closes` are the columns of one frame;
`.iloc[-1]` on an empty frame raises IndexError, modelled as `none`
(emptiness is read off the `closes` column, the frame's length).
The rolling aggregates are NaN below 14 bars, a zero latest close
turns the division into a signed infinity or NaN, and the source has
no check for either: on a nonempty frame it always returns a record,
with every artifact propagated into its fields. -/
def calculate_trade_targets_fp (highs lows closes : List ℚ)
    (current_price : ℚ) (trend : String) (risk_reward_ratio : ℚ) :
    Option TradeTargetsFp :=
  if closes.isEmpty then none
  else
    let atr := FloatVal.sub (rollingMaxLast 14 highs) (rollingMinLast 14 lows)
    let current_atr := FloatVal.div atr (FloatVal.fin (lastElem closes))
    let stop_distance := FloatVal.mul (FloatVal.mul (FloatVal.fin current_price) current_atr)
      (FloatVal.fin 1.5)
    let cp := FloatVal.fin current_price
    let stop_loss :=
      if trend = "long" then FloatVal.sub cp stop_distance
      else FloatVal.add cp stop_distance
    let take_profit :=
      if trend = "long" then FloatVal.add cp (FloatVal.mul stop_distance (FloatVal.fin risk_reward_ratio))
      else FloatVal.sub cp (FloatVal.mul stop_distance (FloatVal.fin risk_reward_ratio))
    some
      { stop_loss := stop_loss
        take_profit := take_profit
        risk_distance := FloatVal.fabs (FloatVal.sub cp stop_loss)
        reward_distance := FloatVal.fabs (FloatVal.sub take_profit cp) }

/-- A finite-valued targets record embedded into the float domain. -/
def finTargets (t : TradeTargets) : TradeTargetsFp :=
  { stop_loss := FloatVal.fin t.stop_loss
    take_profit := FloatVal.fin t.take_profit
    risk_distance := FloatVal.fin t.risk_distance
    reward_distance := FloatVal.fin t.reward_distance }

/-- `n` copies of `x`: a concrete constant price column. -/
def col (n : Nat) (x : ℚ) : List ℚ := List.replicate n x

/-- The caveat list built by `_get_entry_timing`
(`trading_signals.py` lines 169-175), in the source's fixed order:
oversold, overbought, missing volume confirmation. -/
def triggered_caveats (technical_signals : TechnicalConditions) : List String :=
  (if technical_signals.rsi_oversold then ["wait for RSI recovery"] else []) ++
  (if technical_signals.rsi_overbought then ["wait for RSI pullback"] else []) ++
  (if !technical_signals.high_volume then ["wait for volume confirmation"] else [])

/-- `SignalGenerator._get_entry_timing` (`trading_signals.py` lines
163-177). Note the default `0` in
`ai_analysis.get('confidence_score', 0)`, unlike the default `0.5`
used in the scoring step. -/
def _get_entry_timing (technical_signals : TechnicalConditions)
    (ai_analysis : AiAnalysis) : String :=
  if technical_signals.high_volume ∧ ai_analysis.confidence_score.getD 0 > 0.8 then
    "immediate"
  else
    let conditions := triggered_caveats technical_signals
    if conditions ≠ [] then "delayed: " ++ String.intercalate ", " conditions
    else "immediate"

/-- The `entry` sub-dictionary of a directional signal
(`trading_signals.py` lines 139-143). -/
structure EntryInfo where
  price : ℚ
  type : String
  timing : String
deriving DecidableEq, Repr

/-- The `targets` sub-dictionary of a directional signal
(`trading_signals.py` lines 144-147): only `stop_loss` and
`take_profit` are copied from the calculator's record. -/
structure TargetsOut where
  stop_loss : ℚ
  take_profit : ℚ
deriving DecidableEq, Repr

/-- The `technical_factors` sub-dictionary
(`trading_signals.py` lines 150-155). -/
structure TechnicalFactors where
  trend : String
  rsi_condition : String
  volume_condition : String
deriving DecidableEq, Repr

/-- The `ai_analysis` sub-dictionary of a directional signal
(`trading_signals.py` lines 156-160). -/
structure AiSummary where
  sentiment : String
  confidence : Option ℚ
  recommendations : List String
deriving DecidableEq, Repr

/-- The dictionary returned by `_generate_final_signal`. The source
returns one of two shapes: a neutral record with keys
`timestamp, signal, message, confidence`, or a directional record with
keys `timestamp, signal, current_price, confidence, entry, targets,
risk_reward_ratio, key_levels, technical_factors, ai_analysis`.
Both shapes live in this one structure; `none` marks an absent key. -/
structure TradingSignal where
  timestamp : String
  signal : String
  message : Option String
  confidence : ℚ
  current_price : Option ℚ
  entry : Option EntryInfo
  targets : Option TargetsOut
  risk_reward_ratio : Option ℚ
  key_levels : Option (List ℚ)
  technical_factors : Option TechnicalFactors
  ai_analysis : Option AiSummary
deriving DecidableEq, Repr

/-- `SignalGenerator._generate_final_signal`
(`trading_signals.py` lines 78-161). `timestamp` stands for the
`datetime.now().isoformat()` the source reads from the clock at the
moment of the call; `highs`, `lows`, `closes` are the columns of the
`ta` object's frame, consumed by `ta.calculate_trade_targets`;
`risk_reward_ratio` and `min_confidence_threshold` are the instance
configuration (defaults 2.0 and 0.7). -/
def _generate_final_signal (timestamp : String) (current_price : ℚ)
    (technical_signals : TechnicalConditions) (ai_analysis : AiAnalysis)
    (highs lows closes : List ℚ)
    (risk_reward_ratio min_confidence_threshold : ℚ) : TradingSignal :=
  let scores := fuser_scores technical_signals ai_analysis
  let bull_score := scores.1
  let bear_score := scores.2
  let signal_type : Option String :=
    if bull_score > bear_score ∧ bull_score > min_confidence_threshold then some "buy"
    else if bear_score > bull_score ∧ bear_score > min_confidence_threshold then some "sell"
    else none
  match signal_type with
  | none =>
    { timestamp := timestamp
      signal := "neutral"
      message := some "No clear trading opportunity"
      confidence := max bull_score bear_score
      current_price := none
      entry := none
      targets := none
      risk_reward_ratio := none
      key_levels := none
      technical_factors := none
      ai_analysis := none }
  | some st =>
    let targets := calculate_trade_targets highs lows closes current_price
      (if st = "buy" then "long" else "short") risk_reward_ratio
    { timestamp := timestamp
      signal := st
      message := none
      confidence := if st = "buy" then bull_score else bear_score
      current_price := some current_price
      entry := some
        { price := current_price
          type := "market"
          timing := _get_entry_timing technical_signals ai_analysis }
      targets := some
        { stop_loss := targets.stop_loss
          take_profit := targets.take_profit }
      risk_reward_ratio := some risk_reward_ratio
      key_levels := some ai_analysis.key_levels
      technical_factors := some
        { trend := if technical_signals.uptrend then "bullish" else "bearish"
          rsi_condition :=
            if technical_signals.rsi_oversold then "oversold"
            else if technical_signals.rsi_overbought then "overbought"
            else "neutral"
          volume_condition := if technical_signals.high_volume then "high" else "normal" }
      ai_analysis := some
        { sentiment := ai_analysis.sentiment
          confidence := ai_analysis.confidence_score
          recommendations := ai_analysis.recommendations } }

/-- `as` begins with `pat`, character by character. -/
def beginsWith : List Char → List Char → Bool
  | [], _ => true
  | _ :: _, [] => false
  | a :: as, b :: bs => a == b && beginsWith as bs

/-- `needle` occurs as a contiguous substring of `hay`: Python's
`word in content` on strings. -/
def hasSub (needle : List Char) : List Char → Bool
  | [] => needle.isEmpty
  | c :: t => beginsWith needle (c :: t) || hasSub needle t

/-- The fixed bullish keyword set of `DeepSeekClient._extract_sentiment`
(`deepseek_client.py` line 153). -/
def bullish_keywords : List String :=
  ["bullish", "upward", "growth", "increase", "higher"]

/-- The fixed bearish keyword set of `DeepSeekClient._extract_sentiment`
(`deepseek_client.py` line 154). -/
def bearish_keywords : List String :=
  ["bearish", "downward", "decline", "decrease", "lower"]

/-- `sum(1 for word in keywords if word in content)`: the number of
keywords of the set occurring in the lower-cased content. -/
def keyword_count (keywords : List String) (content : String) : Nat :=
  (keywords.filter (fun w => hasSub w.toList content.toLower.toList)).length

/-- `DeepSeekClient._extract_sentiment` (`deepseek_client.py` lines
148-163): lower-case the content, count which bullish and bearish
keywords occur, decide by strict comparison, tie to `"neutral"`. -/
def _extract_sentiment (content : String) : String :=
  let bullish_count := keyword_count bullish_keywords content
  let bearish_count := keyword_count bearish_keywords content
  if bullish_count > bearish_count then "bullish"
  else if bearish_count > bullish_count then "bearish"
  else "neutral"

example :
    fuser_scores
      { uptrend := true, downtrend := false, golden_cross := true,
        death_cross := false, rsi_oversold := false, rsi_overbought := false,
        high_volume := false }
      { sentiment := "bullish", confidence_score := some 0.9,
        key_levels := [], recommendations := [] } = (0.85, 0) := by
  norm_num [fuser_scores]

example :
    calculate_trade_targets [110] [90] [100] 100 "long" 2 =
      { stop_loss := 70, take_profit := 160,
        risk_distance := 30, reward_distance := 60 } := by
  norm_num [calculate_trade_targets, listMax, listMin, lastElem]

example :
    _get_entry_timing
      { uptrend := false, downtrend := false, golden_cross := false,
        death_cross := false, rsi_oversold := true, rsi_overbought := false,
        high_volume := false }
      { sentiment := "neutral", confidence_score := none,
        key_levels := [], recommendations := [] } =
    "delayed: wait for RSI recovery, wait for volume confirmation" := by
  norm_num [_get_entry_timing, triggered_caveats]
  rfl

/-- Closed form of the bull accumulator: the sum of the uptrend,
golden-cross, oversold and bullish-sentiment contributions. -/
theorem bull_decomp (t : TechnicalConditions) (ai : AiAnalysis) :
    (fuser_scores t ai).1 =
      (if t.uptrend then 0.25 else 0) + (if t.golden_cross then 0.15 else 0)
      + (if t.rsi_oversold then 0.1 else 0)
      + (if ai.sentiment = "bullish" then 0.5 * ai.confidence_score.getD 0.5 else 0) := by
  obtain ⟨u, d, g, dc, ro, rb, hv⟩ := t
  by_cases hb : ai.sentiment = "bullish" <;>
    cases u <;> cases g <;> cases ro <;>
      simp [fuser_scores, hb] <;> split_ifs <;> ring

/-- Closed form of the bear accumulator: the sum of the downtrend,
death-cross, overbought and bearish-sentiment contributions. -/
theorem bear_decomp (t : TechnicalConditions) (ai : AiAnalysis) :
    (fuser_scores t ai).2 =
      (if t.downtrend then 0.25 else 0) + (if t.death_cross then 0.15 else 0)
      + (if t.rsi_overbought then 0.1 else 0)
      + (if ai.sentiment = "bearish" then 0.5 * ai.confidence_score.getD 0.5 else 0) := by
  obtain ⟨u, d, g, dc, ro, rb, hv⟩ := t
  by_cases hb : ai.sentiment = "bullish" <;>
    by_cases hbr : ai.sentiment = "bearish" <;>
    cases d <;> cases dc <;> cases rb <;>
      simp [fuser_scores, hb, hbr]

/-- The signal field of the fuser's output, as a three-way case split
on the two strict comparisons of the source's decision rule. -/
theorem gfs_signal (ts : String) (cp : ℚ)
    (t : TechnicalConditions) (ai : AiAnalysis)
    (highs lows closes : List ℚ) (rrr thr : ℚ) :
    (_generate_final_signal ts cp t ai highs lows closes rrr thr).signal =
      if (fuser_scores t ai).1 > (fuser_scores t ai).2 ∧ (fuser_scores t ai).1 > thr then "buy"
      else if (fuser_scores t ai).2 > (fuser_scores t ai).1 ∧ (fuser_scores t ai).2 > thr then "sell"
      else "neutral" := by
  simp only [_generate_final_signal]
  split_ifs <;> rfl

/-- The confidence field of the fuser's output: the winning score on a
directional decision, `max` of the scores on neutral. -/
theorem gfs_confidence (ts : String) (cp : ℚ)
    (t : TechnicalConditions) (ai : AiAnalysis)
    (highs lows closes : List ℚ) (rrr thr : ℚ) :
    (_generate_final_signal ts cp t ai highs lows closes rrr thr).confidence =
      if (fuser_scores t ai).1 > (fuser_scores t ai).2 ∧ (fuser_scores t ai).1 > thr then
        (fuser_scores t ai).1
      else if (fuser_scores t ai).2 > (fuser_scores t ai).1 ∧ (fuser_scores t ai).2 > thr then
        (fuser_scores t ai).2
      else max (fuser_scores t ai).1 (fuser_scores t ai).2 := by
  simp only [_generate_final_signal]
  split_ifs <;> rfl

/-- The timestamp field of the fuser's output is the clock value read
at the call. -/
theorem gfs_timestamp (ts : String) (cp : ℚ)
    (t : TechnicalConditions) (ai : AiAnalysis)
    (highs lows closes : List ℚ) (rrr thr : ℚ) :
    (_generate_final_signal ts cp t ai highs lows closes rrr thr).timestamp = ts := by
  simp only [_generate_final_signal]
  split_ifs <;> rfl

/-- C1: the fuser's two accumulators start at 0 and receive exactly the
listed additive contributions, each at most once — uptrend 0.25 to
bull, downtrend 0.25 to bear, golden/death cross 0.15, RSI zones 0.10,
bullish/bearish sentiment `0.5 * confidenceScore` to its side and
neutral sentiment nothing; and on technical = {uptrend, goldenCross},
bullish sentiment with confidence 0.9 and threshold 0.7 the fuser
returns signal = buy with confidence 0.85. -/
theorem C1_fuser_contributions (t : TechnicalConditions) (ai : AiAnalysis)
    (ts : String) (cp : ℚ) (highs lows closes : List ℚ) (rrr : ℚ) :
    ((fuser_scores t ai).1 =
      (if t.uptrend then 0.25 else 0) + (if t.golden_cross then 0.15 else 0)
      + (if t.rsi_oversold then 0.1 else 0)
      + (if ai.sentiment = "bullish" then 0.5 * ai.confidence_score.getD 0.5 else 0)
    ∧ (fuser_scores t ai).2 =
      (if t.downtrend then 0.25 else 0) + (if t.death_cross then 0.15 else 0)
      + (if t.rsi_overbought then 0.1 else 0)
      + (if ai.sentiment = "bearish" then 0.5 * ai.confidence_score.getD 0.5 else 0))
    ∧ ((_generate_final_signal ts cp
        { uptrend := true, downtrend := false, golden_cross := true,
          death_cross := false, rsi_oversold := false, rsi_overbought := false,
          high_volume := false }
        { sentiment := "bullish", confidence_score := some 0.9,
          key_levels := [], recommendations := [] }
        highs lows closes rrr 0.7).signal = "buy"
    ∧ (_generate_final_signal ts cp
        { uptrend := true, downtrend := false, golden_cross := true,
          death_cross := false, rsi_oversold := false, rsi_overbought := false,
          high_volume := false }
        { sentiment := "bullish", confidence_score := some 0.9,
          key_levels := [], recommendations := [] }
        highs lows closes rrr 0.7).confidence = 0.85) := by
  refine ⟨⟨bull_decomp t ai, bear_decomp t ai⟩, ?_, ?_⟩
  · norm_num [_generate_final_signal, fuser_scores]
  · norm_num [_generate_final_signal, fuser_scores]

/-- C2: the fuser returns buy iff `bullScore > bearScore` and
`bullScore > threshold`, sell iff `bearScore > bullScore` and
`bearScore > threshold`, and neutral otherwise; both comparisons are
strict, so a tie of the scores, or a leading score exactly equal to
the threshold, yields neutral, and a neutral result carries
confidence `max(bullScore, bearScore)`. -/
theorem C2_decision_rule (ts : String) (cp : ℚ)
    (t : TechnicalConditions) (ai : AiAnalysis)
    (highs lows closes : List ℚ) (rrr thr : ℚ) :
    ((_generate_final_signal ts cp t ai highs lows closes rrr thr).signal = "buy"
      ↔ (fuser_scores t ai).1 > (fuser_scores t ai).2 ∧ (fuser_scores t ai).1 > thr)
    ∧ ((_generate_final_signal ts cp t ai highs lows closes rrr thr).signal = "sell"
      ↔ (fuser_scores t ai).2 > (fuser_scores t ai).1 ∧ (fuser_scores t ai).2 > thr)
    ∧ ((_generate_final_signal ts cp t ai highs lows closes rrr thr).signal = "neutral"
      ↔ ¬((fuser_scores t ai).1 > (fuser_scores t ai).2 ∧ (fuser_scores t ai).1 > thr)
        ∧ ¬((fuser_scores t ai).2 > (fuser_scores t ai).1 ∧ (fuser_scores t ai).2 > thr))
    ∧ ((fuser_scores t ai).1 = (fuser_scores t ai).2
      → (_generate_final_signal ts cp t ai highs lows closes rrr thr).signal = "neutral")
    ∧ ((fuser_scores t ai).1 = thr ∧ (fuser_scores t ai).2 = thr
      → (_generate_final_signal ts cp t ai highs lows closes rrr thr).signal = "neutral")
    ∧ ((_generate_final_signal ts cp t ai highs lows closes rrr thr).signal = "neutral"
      → (_generate_final_signal ts cp t ai highs lows closes rrr thr).confidence
          = max (fuser_scores t ai).1 (fuser_scores t ai).2) := by
  rw [gfs_signal ts cp t ai highs lows closes rrr thr,
    gfs_confidence ts cp t ai highs lows closes rrr thr]
  split_ifs with h1 h2
  · refine ⟨iff_of_true rfl h1, iff_of_false (by simp) ?_, iff_of_false (by simp) ?_,
      ?_, ?_, fun h => absurd h (by simp)⟩
    · rintro ⟨ha, _⟩
      exact absurd h1.1 (by linarith)
    · rintro ⟨ha, _⟩
      exact ha h1
    · intro h
      exact absurd h1.1 (by rw [h]; exact lt_irrefl _)
    · rintro ⟨ha, _⟩
      exact absurd h1.2 (by rw [ha]; exact lt_irrefl _)
  · refine ⟨iff_of_false (by simp) ?_, iff_of_true rfl h2, iff_of_false (by simp) ?_,
      ?_, ?_, fun h => absurd h (by simp)⟩
    · intro ha
      exact h1 ha
    · rintro ⟨_, hb⟩
      exact hb h2
    · intro h
      exact absurd h2.1 (by rw [h]; exact lt_irrefl _)
    · rintro ⟨_, hb⟩
      exact absurd h2.2 (by rw [hb]; exact lt_irrefl _)
  · exact ⟨iff_of_false (by simp) h1, iff_of_false (by simp) h2,
      iff_of_true rfl ⟨h1, h2⟩, fun _ => rfl, fun _ => rfl, fun _ => rfl⟩

/-- C3: a TradingSignal returned by the fuser carries a populated
targets record (stop-loss and take-profit) exactly when its signal is
buy or sell; a neutral signal carries no targets record at all. -/
theorem C3_targets_invariant (ts : String) (cp : ℚ)
    (t : TechnicalConditions) (ai : AiAnalysis)
    (highs lows closes : List ℚ) (rrr thr : ℚ) :
    (((_generate_final_signal ts cp t ai highs lows closes rrr thr).signal = "buy"
        ∨ (_generate_final_signal ts cp t ai highs lows closes rrr thr).signal = "sell")
      ↔ (_generate_final_signal ts cp t ai highs lows closes rrr thr).targets.isSome = true)
    ∧ ((_generate_final_signal ts cp t ai highs lows closes rrr thr).signal = "neutral"
      ↔ (_generate_final_signal ts cp t ai highs lows closes rrr thr).targets = none) := by
  simp only [_generate_final_signal]
  split_ifs <;> simp

/-- On a frame with at least 14 bars in the high and low columns and a
nonzero latest close, the float computation stays finite: the faithful
float model returns exactly the finite values of the `ℚ` form. -/
theorem calc_targets_fp_finite (highs lows closes : List ℚ)
    (current_price : ℚ) (trend : String) (risk_reward_ratio : ℚ)
    (hh : 14 ≤ highs.length) (hl : 14 ≤ lows.length)
    (hc : closes ≠ []) (hcl : lastElem closes ≠ 0) :
    calculate_trade_targets_fp highs lows closes current_price trend risk_reward_ratio
      = some (finTargets
          (calculate_trade_targets highs lows closes current_price trend risk_reward_ratio)) := by
  have hne : closes.isEmpty = false := by
    cases closes with
    | nil => exact absurd rfl hc
    | cons a as => rfl
  simp only [calculate_trade_targets_fp, calculate_trade_targets, finTargets,
    rollingMaxLast, rollingMinLast, hne, Bool.false_eq_true, if_false, hh, hl, if_true,
    FloatVal.sub, FloatVal.div, hcl, FloatVal.mul, FloatVal.add, FloatVal.fabs]
  split_ifs <;>
    simp [FloatVal.sub, FloatVal.div, FloatVal.mul, FloatVal.add, FloatVal.fabs, hcl]

/-- C4: at a zero latest close the source's `calculate_trade_targets`
does not fail: numpy float division by zero raises no error, so on a
14-bar frame whose latest close is 0 the function returns a record
whose stop-loss is negative infinity and whose take-profit and
distances are positive infinity — division-by-zero artifacts that then
flow into the emitted signal. The claim's explicit domain error and
skipped cycle do not exist in the code. -/
theorem C4_zero_close_artifact :
    calculate_trade_targets_fp (col 14 110) (col 14 90) (col 13 100 ++ [0])
        100 "long" 2
      = some
        { stop_loss := FloatVal.negInf
          take_profit := FloatVal.posInf
          risk_distance := FloatVal.posInf
          reward_distance := FloatVal.posInf } := by
  have hmax : rollingMaxLast 14 (col 14 110) = FloatVal.fin 110 := by decide
  have hmin : rollingMinLast 14 (col 14 90) = FloatVal.fin 90 := by decide
  have hlast : lastElem (col 13 100 ++ [0]) = 0 := by decide
  have hemp : (col 13 100 ++ [0]).isEmpty = false := by decide
  norm_num [calculate_trade_targets_fp, hmax, hmin, hlast, hemp,
    FloatVal.sub, FloatVal.div, FloatVal.mul, FloatVal.add, FloatVal.fabs]

/-- C5 counterexample: on a 14-bar flat window (every high and low
equal) the program's computation is finite, the volatility proxy is 0,
and for trend long the stop-loss and take-profit both equal the
current price, so the strict ordering
`stopLoss < currentPrice < takeProfit` fails, refuting the claim for
arbitrary price series. -/
theorem C5_counterexample :
    calculate_trade_targets_fp (col 14 100) (col 14 100) (col 14 100) 100 "long" 2
      = some
        { stop_loss := FloatVal.fin 100
          take_profit := FloatVal.fin 100
          risk_distance := FloatVal.fin 0
          reward_distance := FloatVal.fin 0 }
    ∧ ¬((100:ℚ) < 100) := by
  constructor
  · have hmax : rollingMaxLast 14 (col 14 100) = FloatVal.fin 100 := by decide
    have hmin : rollingMinLast 14 (col 14 100) = FloatVal.fin 100 := by decide
    have hlast : lastElem (col 14 100) = 100 := by decide
    have hemp : (col 14 100).isEmpty = false := by decide
    norm_num [calculate_trade_targets_fp, hmax, hmin, hlast, hemp,
      FloatVal.sub, FloatVal.div, FloatVal.mul, FloatVal.add, FloatVal.fabs]
  · norm_num

/-- C5 (amended): on a frame with at least 14 bars, if the current
price is positive, the latest close is positive, the 14-bar window has
positive range (max recent high strictly above min recent low) and the
risk/reward ratio is positive, then the float computation is finite
and the targets satisfy the strict ordering: long gives
`stopLoss < currentPrice < takeProfit` and short gives
`takeProfit < currentPrice < stopLoss`. -/
theorem C5_directionality (highs lows closes : List ℚ) (cp rrr : ℚ)
    (hh : 14 ≤ highs.length) (hl : 14 ≤ lows.length) (hc : 14 ≤ closes.length)
    (hcp : 0 < cp) (hr : 0 < rrr)
    (hrange : listMin (lows.reverse.take 14) < listMax (highs.reverse.take 14))
    (hclose : 0 < lastElem closes) :
    (calculate_trade_targets_fp highs lows closes cp "long" rrr
        = some (finTargets (calculate_trade_targets highs lows closes cp "long" rrr))
      ∧ (calculate_trade_targets highs lows closes cp "long" rrr).stop_loss < cp
      ∧ cp < (calculate_trade_targets highs lows closes cp "long" rrr).take_profit)
    ∧ (calculate_trade_targets_fp highs lows closes cp "short" rrr
        = some (finTargets (calculate_trade_targets highs lows closes cp "short" rrr))
      ∧ (calculate_trade_targets highs lows closes cp "short" rrr).take_profit < cp
      ∧ cp < (calculate_trade_targets highs lows closes cp "short" rrr).stop_loss) := by
  have hcne : closes ≠ [] := List.length_pos.mp (lt_of_lt_of_le (by norm_num) hc)
  have h1 : 0 < listMax (highs.reverse.take 14) - listMin (lows.reverse.take 14) :=
    sub_pos.2 hrange
  have h2 : 0 < (listMax (highs.reverse.take 14) - listMin (lows.reverse.take 14))
      / lastElem closes := div_pos h1 hclose
  have hsd : 0 < cp * ((listMax (highs.reverse.take 14) - listMin (lows.reverse.take 14))
      / lastElem closes) * 1.5 := mul_pos (mul_pos hcp h2) (by norm_num)
  have hsr : 0 < cp * ((listMax (highs.reverse.take 14) - listMin (lows.reverse.take 14))
      / lastElem closes) * 1.5 * rrr := mul_pos hsd hr
  have hlong : (("long" : String) = "long") = True := by simp
  have hshort : (("short" : String) = "long") = False := by simp
  refine ⟨⟨calc_targets_fp_finite highs lows closes cp "long" rrr hh hl hcne
      (ne_of_gt hclose), ?_, ?_⟩,
    calc_targets_fp_finite highs lows closes cp "short" rrr hh hl hcne
      (ne_of_gt hclose), ?_, ?_⟩ <;>
    simp only [calculate_trade_targets, hlong, hshort, if_true, if_false] <;>
    linarith

/-- Witness for C5 (amended) at a concrete 14-bar window. -/
theorem C5_directionality_witness :
    (calculate_trade_targets_fp (col 14 110) (col 14 90) (col 14 100) 100 "long" 2
        = some (finTargets
            (calculate_trade_targets (col 14 110) (col 14 90) (col 14 100) 100 "long" 2))
      ∧ (calculate_trade_targets (col 14 110) (col 14 90) (col 14 100) 100 "long" 2).stop_loss < 100
      ∧ (100:ℚ) < (calculate_trade_targets (col 14 110) (col 14 90) (col 14 100)
          100 "long" 2).take_profit)
    ∧ (calculate_trade_targets_fp (col 14 110) (col 14 90) (col 14 100) 100 "short" 2
        = some (finTargets
            (calculate_trade_targets (col 14 110) (col 14 90) (col 14 100) 100 "short" 2))
      ∧ (calculate_trade_targets (col 14 110) (col 14 90) (col 14 100)
          100 "short" 2).take_profit < 100
      ∧ (100:ℚ) < (calculate_trade_targets (col 14 110) (col 14 90) (col 14 100)
          100 "short" 2).stop_loss) :=
  C5_directionality (col 14 110) (col 14 90) (col 14 100) 100 2
    (by decide) (by decide) (by decide) (by norm_num) (by norm_num) (by decide) (by decide)

/-- C6 counterexample: on a frame shorter than 14 bars the rolling
aggregates are NaN with pandas' default `min_periods`, so the program
returns NaN distances, and the float comparison
`rewardDistance == riskDistance * riskRewardRatio` is false, NaN being
unequal to everything; the claim fails for arbitrary price series. -/
theorem C6_counterexample :
    calculate_trade_targets_fp [110] [90] [100] 100 "long" 2
      = some
        { stop_loss := FloatVal.nan
          take_profit := FloatVal.nan
          risk_distance := FloatVal.nan
          reward_distance := FloatVal.nan }
    ∧ FloatVal.floatEq FloatVal.nan
        (FloatVal.mul FloatVal.nan (FloatVal.fin 2)) = false :=
  ⟨rfl, rfl⟩

/-- C6 (amended): on a frame with at least 14 bars and a nonzero
latest close the float computation is finite, and for every current
price, every trend string and every positive risk/reward ratio the
targets satisfy `rewardDistance = riskDistance * riskRewardRatio`
exactly, the distances being the absolute offsets of take-profit and
stop-loss from the current price. -/
theorem C6_reward_risk_ratio (highs lows closes : List ℚ) (cp : ℚ)
    (trend : String) (rrr : ℚ)
    (hh : 14 ≤ highs.length) (hl : 14 ≤ lows.length) (hc : 14 ≤ closes.length)
    (hclose : lastElem closes ≠ 0) (hr : 0 < rrr) :
    calculate_trade_targets_fp highs lows closes cp trend rrr
      = some (finTargets (calculate_trade_targets highs lows closes cp trend rrr))
    ∧ (calculate_trade_targets highs lows closes cp trend rrr).reward_distance =
        (calculate_trade_targets highs lows closes cp trend rrr).risk_distance * rrr := by
  have hcne : closes ≠ [] := List.length_pos.mp (lt_of_lt_of_le (by norm_num) hc)
  refine ⟨calc_targets_fp_finite highs lows closes cp trend rrr hh hl hcne hclose, ?_⟩
  simp only [calculate_trade_targets]
  split_ifs with ht
  · have e1 : cp + cp * ((listMax (highs.reverse.take 14) - listMin (lows.reverse.take 14))
        / lastElem closes) * 1.5 * rrr - cp
        = (cp * ((listMax (highs.reverse.take 14) - listMin (lows.reverse.take 14))
          / lastElem closes) * 1.5) * rrr := by ring
    have e2 : cp - (cp - cp * ((listMax (highs.reverse.take 14) - listMin (lows.reverse.take 14))
        / lastElem closes) * 1.5)
        = cp * ((listMax (highs.reverse.take 14) - listMin (lows.reverse.take 14))
          / lastElem closes) * 1.5 := by ring
    rw [e1, e2, abs_mul, abs_of_pos hr]
  · have e1 : cp - cp * ((listMax (highs.reverse.take 14) - listMin (lows.reverse.take 14))
        / lastElem closes) * 1.5 * rrr - cp
        = -((cp * ((listMax (highs.reverse.take 14) - listMin (lows.reverse.take 14))
          / lastElem closes) * 1.5) * rrr) := by ring
    have e2 : cp - (cp + cp * ((listMax (highs.reverse.take 14) - listMin (lows.reverse.take 14))
        / lastElem closes) * 1.5)
        = -(cp * ((listMax (highs.reverse.take 14) - listMin (lows.reverse.take 14))
          / lastElem closes) * 1.5) := by ring
    rw [e1, e2, abs_neg, abs_neg, abs_mul, abs_of_pos hr]

/-- Witness for C6 (amended) at a concrete 14-bar window:
risk 30, reward 60, ratio 2. -/
theorem C6_reward_risk_ratio_witness :
    calculate_trade_targets_fp (col 14 110) (col 14 90) (col 14 100) 100 "long" 2
      = some (finTargets
          (calculate_trade_targets (col 14 110) (col 14 90) (col 14 100) 100 "long" 2))
    ∧ (calculate_trade_targets (col 14 110) (col 14 90) (col 14 100)
        100 "long" 2).reward_distance =
      (calculate_trade_targets (col 14 110) (col 14 90) (col 14 100)
        100 "long" 2).risk_distance * 2 :=
  C6_reward_risk_ratio (col 14 110) (col 14 90) (col 14 100) 100 "long" 2
    (by decide) (by decide) (by decide) (by decide) (by norm_num)

/-- C7: the entry-timing heuristic returns "immediate" exactly when
high volume coincides with sentiment confidence above 0.8 or when no
caveat condition applies; otherwise it returns the "delayed: ..."
string listing exactly the triggered caveats (oversold, overbought,
missing volume confirmation) in that fixed order. -/
theorem C7_entry_timing (t : TechnicalConditions) (ai : AiAnalysis) :
    (((t.high_volume = true ∧ ai.confidence_score.getD 0 > 0.8)
        ∨ triggered_caveats t = [])
      ∧ _get_entry_timing t ai = "immediate")
    ∨ (¬((t.high_volume = true ∧ ai.confidence_score.getD 0 > 0.8)
        ∨ triggered_caveats t = [])
      ∧ _get_entry_timing t ai
          = "delayed: " ++ String.intercalate ", " (triggered_caveats t)) := by
  obtain ⟨u, d, g, dc, ro, rb, hv⟩ := t
  by_cases hc : ai.confidence_score.getD 0 > 0.8 <;>
    cases ro <;> cases rb <;> cases hv <;>
      simp [_get_entry_timing, triggered_caveats, hc]

/-- C8 counterexample: two invocations of the fuser that agree on
every input of the claim (current price, technical conditions,
sentiment verdict, series, ratio and threshold) but happen at
different clock instants produce records differing in the timestamp
field, so the records are not identical in every field. -/
theorem C8_counterexample :
    ¬(_generate_final_signal "2025-01-01T00:00:00" 100
        { uptrend := true, downtrend := false, golden_cross := true,
          death_cross := false, rsi_oversold := false, rsi_overbought := false,
          high_volume := true }
        { sentiment := "bullish", confidence_score := some 0.9,
          key_levels := [], recommendations := [] }
        [110] [90] [100] 2 0.7
      = _generate_final_signal "2025-01-01T01:00:00" 100
        { uptrend := true, downtrend := false, golden_cross := true,
          death_cross := false, rsi_oversold := false, rsi_overbought := false,
          high_volume := true }
        { sentiment := "bullish", confidence_score := some 0.9,
          key_levels := [], recommendations := [] }
        [110] [90] [100] 2 0.7) := by
  intro h
  have h2 := congrArg TradingSignal.timestamp h
  rw [gfs_timestamp, gfs_timestamp] at h2
  exact absurd h2 (by decide)

/-- C8 (amended): the fuser is deterministic in everything but the
clock: two invocations with identical current price, technical
conditions, sentiment verdict, price series, risk/reward ratio and
threshold produce records identical in every field except the
timestamp, which records the invocation instant. -/
theorem C8_deterministic_modulo_timestamp (ts1 ts2 : String) (cp : ℚ)
    (t : TechnicalConditions) (ai : AiAnalysis)
    (highs lows closes : List ℚ) (rrr thr : ℚ) :
    (_generate_final_signal ts1 cp t ai highs lows closes rrr thr).signal
      = (_generate_final_signal ts2 cp t ai highs lows closes rrr thr).signal
    ∧ (_generate_final_signal ts1 cp t ai highs lows closes rrr thr).message
      = (_generate_final_signal ts2 cp t ai highs lows closes rrr thr).message
    ∧ (_generate_final_signal ts1 cp t ai highs lows closes rrr thr).confidence
      = (_generate_final_signal ts2 cp t ai highs lows closes rrr thr).confidence
    ∧ (_generate_final_signal ts1 cp t ai highs lows closes rrr thr).current_price
      = (_generate_final_signal ts2 cp t ai highs lows closes rrr thr).current_price
    ∧ (_generate_final_signal ts1 cp t ai highs lows closes rrr thr).entry
      = (_generate_final_signal ts2 cp t ai highs lows closes rrr thr).entry
    ∧ (_generate_final_signal ts1 cp t ai highs lows closes rrr thr).targets
      = (_generate_final_signal ts2 cp t ai highs lows closes rrr thr).targets
    ∧ (_generate_final_signal ts1 cp t ai highs lows closes rrr thr).risk_reward_ratio
      = (_generate_final_signal ts2 cp t ai highs lows closes rrr thr).risk_reward_ratio
    ∧ (_generate_final_signal ts1 cp t ai highs lows closes rrr thr).key_levels
      = (_generate_final_signal ts2 cp t ai highs lows closes rrr thr).key_levels
    ∧ (_generate_final_signal ts1 cp t ai highs lows closes rrr thr).technical_factors
      = (_generate_final_signal ts2 cp t ai highs lows closes rrr thr).technical_factors
    ∧ (_generate_final_signal ts1 cp t ai highs lows closes rrr thr).ai_analysis
      = (_generate_final_signal ts2 cp t ai highs lows closes rrr thr).ai_analysis := by
  simp only [_generate_final_signal]
  split_ifs <;> simp

/-- C9: the sentiment interpreter decides polarity by how many
keywords of the fixed bullish set versus the fixed bearish set occur
in the lower-cased text: strictly more bullish keywords give
"bullish", strictly more bearish keywords give "bearish", and a tie —
in particular a text containing no keyword at all — gives "neutral". -/
theorem C9_sentiment_polarity (content : String) :
    (_extract_sentiment content = "bullish"
      ↔ keyword_count bullish_keywords content > keyword_count bearish_keywords content)
    ∧ (_extract_sentiment content = "bearish"
      ↔ keyword_count bearish_keywords content > keyword_count bullish_keywords content)
    ∧ (_extract_sentiment content = "neutral"
      ↔ keyword_count bullish_keywords content = keyword_count bearish_keywords content) := by
  simp only [_extract_sentiment]
  split_ifs with h1 h2 <;> refine ⟨?_, ?_, ?_⟩ <;> simp_all <;> omega

/-- C10: when the sentiment verdict lacks a confidence score, the
scoring step substitutes 0.5 — so a bullish (resp. bearish) verdict
still adds 0.25 to its side's score over a neutral verdict — while
the entry-timing heuristic substitutes 0, so its
high-volume-and-confidence branch can never fire and "immediate" is
only reachable through the no-caveat fallback. -/
theorem C10_confidence_defaults (t : TechnicalConditions) (s : String)
    (kl : List ℚ) (recs : List String) :
    (fuser_scores t
        { sentiment := s, confidence_score := none,
          key_levels := kl, recommendations := recs }
      = fuser_scores t
        { sentiment := s, confidence_score := some 0.5,
          key_levels := kl, recommendations := recs })
    ∧ ((fuser_scores t
        { sentiment := "bullish", confidence_score := none,
          key_levels := kl, recommendations := recs }).1
      = (fuser_scores t
        { sentiment := "neutral", confidence_score := none,
          key_levels := kl, recommendations := recs }).1 + 0.25
      ∧ (fuser_scores t
        { sentiment := "bullish", confidence_score := none,
          key_levels := kl, recommendations := recs }).2
      = (fuser_scores t
        { sentiment := "neutral", confidence_score := none,
          key_levels := kl, recommendations := recs }).2)
    ∧ ((fuser_scores t
        { sentiment := "bearish", confidence_score := none,
          key_levels := kl, recommendations := recs }).2
      = (fuser_scores t
        { sentiment := "neutral", confidence_score := none,
          key_levels := kl, recommendations := recs }).2 + 0.25
      ∧ (fuser_scores t
        { sentiment := "bearish", confidence_score := none,
          key_levels := kl, recommendations := recs }).1
      = (fuser_scores t
        { sentiment := "neutral", confidence_score := none,
          key_levels := kl, recommendations := recs }).1)
    ∧ (_get_entry_timing t
        { sentiment := s, confidence_score := none,
          key_levels := kl, recommendations := recs } = "immediate"
      ↔ triggered_caveats t = []) := by
  refine ⟨rfl, ?_, ?_, ?_⟩
  · constructor
    · rw [bull_decomp, bull_decomp]
      simp
      ring
    · rw [bear_decomp, bear_decomp]
      simp
  · constructor
    · rw [bear_decomp, bear_decomp]
      simp
      ring
    · rw [bull_decomp, bull_decomp]
      simp
  · obtain ⟨u, d, g, dc, ro, rb, hv⟩ := t
    cases ro <;> cases rb <;> cases hv <;>
      norm_num [_get_entry_timing, triggered_caveats] <;> decide
